import Mathlib

set_option maxHeartbeats 1000000

/-!
Shallow embedding of the browser-automation gateway's HTTP facade
(`eval-server/nodejs/src/api-server.js`) together with the pieces of its
collaborators (tab lifecycle, RPC dispatcher pending map) that the facade
depends on.  JSON/JavaScript values are modelled by `JsValue`; JS object
property access, truthiness and the `||` operator are modelled explicitly so
that the definitions below follow the JavaScript source line by line.
-/

/-- A JavaScript/JSON value.  `jnull` stands for both `null` and `undefined`
(the facade never distinguishes them). -/
inductive JsValue where
  | jnull
  | jbool (b : Bool)
  | jnum (n : Int)
  | jstr (s : String)
  | jarr (elems : List JsValue)
  | jobj (fields : List (String × JsValue))

/-- JavaScript truthiness of a value. -/
def truthy : JsValue → Bool
  | .jnull => false
  | .jbool b => b
  | .jnum n => n != 0
  | .jstr s => s != ""
  | .jarr _ => true
  | .jobj _ => true

/-- First binding of a key in an object's field list. -/
def lookupField : List (String × JsValue) → String → Option JsValue
  | [], _ => none
  | (k, v) :: rest, key => if k = key then some v else lookupField rest key

/-- Property access on objects; `none` when the receiver is not an object or
lacks the key. -/
def getField : JsValue → String → Option JsValue
  | .jobj fields, key => lookupField fields key
  | _, _ => none

/-- JavaScript property read `v.key`: `undefined` (here `jnull`) when absent. -/
def jsProp (v : JsValue) (key : String) : JsValue :=
  (getField v key).getD .jnull

/-- JavaScript `a || b`. -/
def jsOr (a b : JsValue) : JsValue :=
  if truthy a then a else b

/-- JavaScript optional chaining `v?.key`. -/
def jsOptChain (v : JsValue) (key : String) : JsValue :=
  match v with
  | .jnull => .jnull
  | _ => jsProp v key

/-- Whether a value is a string (JS `typeof v === 'string'`). -/
def JsValue.isStr : JsValue → Bool
  | .jstr _ => true
  | _ => false

/-- JS `typeof v === 'object'` (true for objects, arrays and `null`). -/
def jsTypeofObject : JsValue → Bool
  | .jnull => true
  | .jarr _ => true
  | .jobj _ => true
  | _ => false

mutual

/-- JavaScript strict equality `===` on values. -/
def jsEq : JsValue → JsValue → Bool
  | .jnull, .jnull => true
  | .jbool a, .jbool b => a == b
  | .jnum a, .jnum b => a == b
  | .jstr a, .jstr b => a == b
  | .jarr a, .jarr b => jsEqArr a b
  | .jobj a, .jobj b => jsEqObj a b
  | _, _ => false

/-- Elementwise equality of arrays. -/
def jsEqArr : List JsValue → List JsValue → Bool
  | [], [] => true
  | a :: as', b :: bs' => jsEq a b && jsEqArr as' bs'
  | _, _ => false

/-- Fieldwise equality of objects. -/
def jsEqObj : List (String × JsValue) → List (String × JsValue) → Bool
  | [], [] => true
  | (k1, v1) :: as', (k2, v2) :: bs' => k1 == k2 && jsEq v1 v2 && jsEqObj as' bs'
  | _, _ => false

end

mutual

/-- Model of `JSON.stringify` (string escaping and pretty-printing elided). -/
def stringify : JsValue → String
  | .jnull => "null"
  | .jbool true => "true"
  | .jbool false => "false"
  | .jnum n => toString n
  | .jstr s => "\"" ++ s ++ "\""
  | .jarr elems => "[" ++ stringifyArr elems ++ "]"
  | .jobj fields => "\x7b" ++ stringifyObj fields ++ "\x7d"

/-- Comma-separated serialization of array elements. -/
def stringifyArr : List JsValue → String
  | [] => ""
  | [v] => stringify v
  | v :: rest => stringify v ++ "," ++ stringifyArr rest

/-- Comma-separated serialization of object fields. -/
def stringifyObj : List (String × JsValue) → String
  | [] => ""
  | [(k, v)] => "\"" ++ k ++ "\":" ++ stringify v
  | (k, v) :: rest => "\"" ++ k ++ "\":" ++ stringify v ++ "," ++ stringifyObj rest

end

/-- Rendering of a value inside a JS template literal (used in error
messages built with backquoted interpolation in the source). -/
def jsTemplate : JsValue → String
  | .jnull => "null"
  | .jbool true => "true"
  | .jbool false => "false"
  | .jnum n => toString n
  | .jstr s => s
  | .jarr _ => ""
  | .jobj _ => "[object Object]"

/-- A live WebSocket connection as the facade sees it: the `ready` flag and
the remote address. -/
structure Connection where
  ready : Bool
  remoteAddress : Option String
deriving DecidableEq

/-- A configured agent identity from the persistent client registry. -/
structure PersistentClient where
  id : String
  name : String
  description : String
deriving DecidableEq

/-- A browser tab the gateway opened, as recorded by the tab registry. -/
structure Tab where
  tabId : String
  compositeClientId : String
  url : JsValue
  connectedAt : Int
  connection : Option Connection

/-- Result of opening a tab: the new target id, the composite client id and
the url. -/
structure TabResult where
  tabId : String
  compositeClientId : String
  url : JsValue

/-- The server-side state the facade reads: the persistent client registry
(`getAllClients`/`getClient`), the tab registry (`getClientTabs`), the
live-connection map keyed by composite client id (`connectedClients`), the
loaded `config.yaml` defaults, the configured evaluations per client and the
opaque status summary.  The registry functions live in the client manager,
which is not part of the sources here; per the spec they are plain lookups
by client id, modelled by the three map-valued fields. -/
structure ServerState where
  clients : List PersistentClient
  tabsOf : String → List Tab
  connectedClients : String → Option Connection
  configDefaults : JsValue
  evaluationsOf : String → List JsValue
  serverStatus : JsValue

/-- External nondeterminism: CDP outcomes, the live map as seen at each poll
instant, evaluation outcomes, the `OPENAI_API_KEY` environment variable and
the generated identifiers (`uuidv4()`, `Date.now()`, the random suffix). -/
structure ExtEnv where
  createTargetResult : Except String String
  closeTargetResult : Except String JsValue
  connAt : String → Nat → Option Connection
  execOutcome : JsValue → Except String JsValue
  apiKeyEnv : Option String
  uuid : String
  now : Nat
  rand : String

/-- Observable side effects attempted by a handler, in order. -/
inductive Effect where
  | openTabCall (baseClientId : String) (url : JsValue) (background : JsValue)
  | closeTabCall (baseClientId : String) (tabId : JsValue)
  | sleep (ms : JsValue)
  | updateStatus (clientId : String) (evaluationId : JsValue) (status : String)
  | rpcDispatch (method : String) (evaluationId : JsValue) (timeoutMs : JsValue)

/-- An HTTP response sent back to the caller. -/
structure HttpResponse where
  status : Nat
  body : JsValue

/-- Model of `sendError`: an error status with the JSON body `\x7berror: message\x7d`. -/
def sendErrorResponse (statusCode : Nat) (message : String) : HttpResponse :=
  { status := statusCode, body := .jobj [("error", .jstr message)] }

/-- Lookup of `connection?.ready || false`. -/
def connReadyOf : Option Connection → Bool
  | some c => c.ready
  | none => false

/-- Lookup of `tab.connection?.remoteAddress || 'unknown'`. -/
def tabRemoteAddress (tab : Tab) : String :=
  match tab.connection with
  | some c =>
    match c.remoteAddress with
    | some a => if a = "" then "unknown" else a
    | none => "unknown"
  | none => "unknown"

/-- The per-tab JSON projection used by both `getClients` and
`getClientTabsById` (the source repeats this object literal in both). -/
def tabEntryJson (st : ServerState) (tab : Tab) : JsValue :=
  .jobj [("tabId", .jstr tab.tabId),
         ("compositeClientId", .jstr tab.compositeClientId),
         ("connected", .jbool (st.connectedClients tab.compositeClientId).isSome),
         ("ready", .jbool (connReadyOf (st.connectedClients tab.compositeClientId))),
         ("connectedAt", .jnum tab.connectedAt),
         ("remoteAddress", .jstr (tabRemoteAddress tab))]

/-- Translation of `APIServer.getStatus`. -/
def getStatus (st : ServerState) : JsValue :=
  .jobj [("server", st.serverStatus),
         ("clients", .jarr (st.clients.map fun client =>
            .jobj [("id", .jstr client.id),
                   ("name", .jstr client.name),
                   ("connected", .jbool (st.connectedClients client.id).isSome),
                   ("ready", .jbool (connReadyOf (st.connectedClients client.id)))]))]

/-- Translation of `APIServer.getClients`. -/
def getClients (st : ServerState) : JsValue :=
  .jarr (st.clients.map fun client =>
    let tabs := st.tabsOf client.id
    .jobj [("id", .jstr client.id),
           ("name", .jstr client.name),
           ("description", .jstr client.description),
           ("tabCount", .jnum tabs.length),
           ("tabs", .jarr (tabs.map (tabEntryJson st)))])

/-- Translation of `APIServer.getClientEvaluations`. -/
def getClientEvaluations (st : ServerState) (clientId : String) : Except String JsValue :=
  if clientId = "" then .error "Client ID is required"
  else
    .ok (.jobj [("clientId", .jstr clientId),
      ("evaluations", .jarr ((st.evaluationsOf clientId).map fun evaluation =>
        .jobj [("id", jsProp evaluation "id"),
               ("name", jsProp evaluation "name"),
               ("description", jsProp evaluation "description"),
               ("tool", jsProp evaluation "tool"),
               ("status", jsOr (jsProp evaluation "status") (.jstr "pending")),
               ("enabled", .jbool (!jsEq (jsProp evaluation "enabled") (.jbool false))),
               ("lastRun", jsProp evaluation "lastRun"),
               ("lastResult", jsProp evaluation "lastResult")]))])

/-- Translation of `APIServer.getClientTabsById`. -/
def getClientTabsById (st : ServerState) (clientId : String) : Except String JsValue :=
  if clientId = "" then .error "Client ID is required"
  else
    let tabs := st.tabsOf clientId
    match st.clients.find? (fun c => c.id == clientId) with
    | none => .error ("Client '" ++ clientId ++ "' not found")
    | some client =>
      .ok (.jobj [("baseClientId", .jstr clientId),
                  ("clientName", .jstr client.name),
                  ("tabCount", .jnum tabs.length),
                  ("tabs", .jarr (tabs.map (tabEntryJson st)))])

/-- Loop body of `APIServer.findClientWithTabs`: the first client of the
registry whose tab list is nonempty. -/
def firstClientWithTabs (tabsOf : String → List Tab) : List PersistentClient → Option PersistentClient
  | [] => none
  | client :: rest =>
    if 0 < (tabsOf client.id).length then some client
    else firstClientWithTabs tabsOf rest

/-- Translation of `APIServer.findClientWithTabs`: first client with tabs, else the first
known client, else an error. -/
def findClientWithTabs (st : ServerState) : Except String String :=
  match firstClientWithTabs st.tabsOf st.clients with
  | some client => .ok client.id
  | none =>
    match st.clients with
    | client :: _ => .ok client.id
    | [] => .error "No clients found. Please ensure at least one DevTools client is registered."

/-- The timeout message of `APIServer.waitForClientConnection`. -/
def connectionTimeoutMessage (compositeClientId : String) : String :=
  "Timeout waiting for client connection: " ++ compositeClientId ++
    ". Tab may not have connected to eval-server."

/-- Poll loop of `APIServer.waitForClientConnection`: poll number `k` runs at
elapsed time `500 * k` ms; while the elapsed time is below `maxWaitMs` the
live map is consulted and a ready entry is returned, otherwise the loop
sleeps 500 ms and retries; once `maxWaitMs` elapses it fails.  `fuel` is
termination bookkeeping only: the entry point passes `maxWaitMs / 500 + 1`,
one more than the number of poll instants below `maxWaitMs`, so the
fuel-exhausted branch coincides with the elapsed-time timeout. -/
def waitLoop (connAt : Nat → Option Connection) (compositeClientId : String)
    (maxWaitMs : Nat) : Nat → Nat → Except String Connection
  | 0, _ => .error (connectionTimeoutMessage compositeClientId)
  | fuel + 1, k =>
    if 500 * k < maxWaitMs then
      match connAt (500 * k) with
      | some connection =>
        if connection.ready then .ok connection
        else waitLoop connAt compositeClientId maxWaitMs fuel (k + 1)
      | none => waitLoop connAt compositeClientId maxWaitMs fuel (k + 1)
    else .error (connectionTimeoutMessage compositeClientId)

/-- Translation of `APIServer.waitForClientConnection(compositeClientId, maxWaitMs)`. -/
def waitForClientConnection (connAt : Nat → Option Connection)
    (compositeClientId : String) (maxWaitMs : Nat) : Except String Connection :=
  waitLoop connAt compositeClientId maxWaitMs (maxWaitMs / 500 + 1) 0

/-- Call of `waitForClientConnection` with the `maxWaitMs` parameter left at
its default of 10000 ms. -/
def waitForClientConnectionDefault (connAt : Nat → Option Connection)
    (compositeClientId : String) : Except String Connection :=
  waitForClientConnection connAt compositeClientId 10000

/-- The three model tiers of `createDefaultModelConfig` ('main'|'mini'|'nano'). -/
inductive ModelTier where
  | main
  | mini
  | nano
deriving DecidableEq

/-- Translation of `APIServer.createDefaultModelConfig(tier, defaults)`: hard-coded model
fallbacks per tier, provider fallback 'openai', `api_key` from the
`OPENAI_API_KEY` environment variable. -/
def createDefaultModelConfig (tier : ModelTier) (defaults : JsValue)
    (apiKeyEnv : Option String) : JsValue :=
  let mainDefault := jsOr (jsProp defaults "main_model") (.jstr "gpt-4")
  let miniDefault := jsOr (jsProp defaults "mini_model") (.jstr "gpt-4-mini")
  let nanoDefault := jsOr (jsProp defaults "nano_model") (.jstr "gpt-3.5-turbo")
  let tierModel :=
    match tier with
    | .main => mainDefault
    | .mini => miniDefault
    | .nano => nanoDefault
  .jobj [("provider", jsOr (jsProp defaults "provider") (.jstr "openai")),
         ("model", tierModel),
         ("api_key", match apiKeyEnv with | some key => .jstr key | none => .jnull)]

/-- Translation of `APIServer.processNestedModelConfig(requestBody)`: request-supplied tier
values win, each tier falling back independently to
`createDefaultModelConfig` over `configDefaults?.model || \x7b\x7d`. -/
def processNestedModelConfig (configDefaults : JsValue) (requestBody : JsValue)
    (apiKeyEnv : Option String) : JsValue :=
  let defaults := jsOr (jsOptChain configDefaults "model") (.jobj [])
  if truthy (jsProp requestBody "model") then
    .jobj [("main_model", jsOr (jsProp (jsProp requestBody "model") "main_model")
              (createDefaultModelConfig .main defaults apiKeyEnv)),
           ("mini_model", jsOr (jsProp (jsProp requestBody "model") "mini_model")
              (createDefaultModelConfig .mini defaults apiKeyEnv)),
           ("nano_model", jsOr (jsProp (jsProp requestBody "model") "nano_model")
              (createDefaultModelConfig .nano defaults apiKeyEnv))]
  else
    .jobj [("main_model", createDefaultModelConfig .main defaults apiKeyEnv),
           ("mini_model", createDefaultModelConfig .mini defaults apiKeyEnv),
           ("nano_model", createDefaultModelConfig .nano defaults apiKeyEnv)]

/-- Translation of `APIServer.extractResponseText(result)`: the if-chain of the source, in
source order. -/
def extractResponseText (result : JsValue) : JsValue :=
  if !truthy result then .jstr "No response received from evaluation"
  else if result.isStr then result
  else if truthy (jsProp result "output") &&
          truthy (jsProp (jsProp result "output") "response") then
    jsProp (jsProp result "output") "response"
  else if truthy (jsProp result "output") &&
          truthy (jsProp (jsProp result "output") "text") then
    jsProp (jsProp result "output") "text"
  else if truthy (jsProp result "output") &&
          truthy (jsProp (jsProp result "output") "answer") then
    jsProp (jsProp result "output") "answer"
  else if truthy (jsProp result "response") then jsProp result "response"
  else if truthy (jsProp result "text") then jsProp result "text"
  else if truthy (jsProp result "answer") then jsProp result "answer"
  else if jsTypeofObject result then .jstr (stringify result)
  else .jstr "Unable to extract response text from evaluation result"

/-- Truthiness of the optional string parameters of `formatResponse`
(`null` default or an empty string are both falsy). -/
def optStrTruthy : Option String → Bool
  | some s => s != ""
  | none => false

/-- Model of the dash-stripping `uuid.replace` call: drop every dash. -/
def stripDashes (s : String) : String :=
  String.mk (s.data.filter (fun ch => ch != '-'))

/-- Translation of `APIServer.formatResponse(responseText, clientId, tabId)`: the
OpenAI-style envelope; metadata is attached only when both `clientId` and
`tabId` are truthy. -/
def formatResponse (uuid : String) (responseText : JsValue)
    (clientId tabId : Option String) : JsValue :=
  let messageId := "msg_" ++ stripDashes uuid
  let baseFields : List (String × JsValue) :=
    [("id", .jstr messageId),
     ("type", .jstr "message"),
     ("role", .jstr "assistant"),
     ("content", .jarr [.jobj [("type", .jstr "output_text"),
                               ("text", responseText),
                               ("annotations", .jarr [])]])]
  if optStrTruthy clientId && optStrTruthy tabId then
    .jarr [.jobj (baseFields ++
      [("metadata", .jobj [("clientId", .jstr (clientId.getD "")),
                           ("tabId", .jstr (tabId.getD ""))])])]
  else
    .jarr [.jobj baseFields]

/-- Translation of `APIServer.createDynamicEvaluationNested(input, nestedModelConfig)`:
`now` models `Date.now()` and `rand` the random base-36 suffix. -/
def createDynamicEvaluationNested (input : String) (nestedModelConfig : JsValue)
    (now : Nat) (rand : String) : JsValue :=
  let evaluationId := "api-eval-" ++ Nat.repr now ++ "-" ++ rand
  .jobj [("id", .jstr evaluationId),
         ("name", .jstr "API Request"),
         ("description", .jstr "Dynamic evaluation created from API request"),
         ("enabled", .jbool true),
         ("tool", .jstr "chat"),
         ("timeout", .jnum 7200000),
         ("input", .jobj [("message", .jstr input)]),
         ("model", nestedModelConfig),
         ("validation", .jobj [("type", .jstr "none")]),
         ("metadata", .jobj [("tags", .jarr [.jstr "api", .jstr "dynamic"]),
                             ("priority", .jstr "high"),
                             ("source", .jstr "api")])]

/-- Split of a char list at every occurrence of a separator char. -/
def splitCharList (sep : Char) : List Char → List (List Char)
  | [] => [[]]
  | c :: rest =>
    let r := splitCharList sep rest
    if c = sep then [] :: r
    else
      match r with
      | [] => [[c]]
      | g :: gs => (c :: g) :: gs

/-- Model of JS `String.prototype.split` with a one-character separator. -/
def splitOnChar (sep : Char) (s : String) : List String :=
  (splitCharList sep s.data).map String.mk

/-- Model of JS `String.prototype.startsWith`. -/
def strStartsWith (s pre : String) : Bool :=
  pre.data.isPrefixOf s.data

/-- Model of JS `String.prototype.endsWith`. -/
def strEndsWith (s suffix : String) : Bool :=
  suffix.data.isSuffixOf s.data

/-- The substring of `s` before the first colon (`s.split(':')[0]`). -/
def firstColonPart (s : String) : String :=
  (splitOnChar ':' s).headD ""

/-- Modelled from the spec: `openTab(baseClientId, \x7burl, background\x7d)` of
the tab lifecycle manager (`BrowserAgentServer.openTab`, whose source is not
among the files here): issue `Target.createTarget\x7burl, background\x7d` via
the CDP bridge, construct `compositeClientId = baseClientId + ":" + tabId`,
record the tab, and return immediately without waiting for the agent to
connect. -/
def serverOpenTab (ext : ExtEnv) (st : ServerState) (baseClientId : String)
    (url _background : JsValue) : Except String (TabResult × ServerState) :=
  match ext.createTargetResult with
  | .error e => .error e
  | .ok targetId =>
    let composite := baseClientId ++ ":" ++ targetId
    let tab : Tab := { tabId := targetId, compositeClientId := composite,
                       url := url, connectedAt := (ext.now : Int), connection := none }
    .ok ({ tabId := targetId, compositeClientId := composite, url := url },
         { st with tabsOf := fun cid =>
             if cid = baseClientId then st.tabsOf cid ++ [tab] else st.tabsOf cid })

/-- Modelled from the spec: `closeTab(baseClientId, tabId)` of the tab
lifecycle manager (not among the sources): issue `Target.closeTarget` via the
CDP bridge and remove the tab mapping; the live connection is left to remove
itself when its socket closes. -/
def serverCloseTab (ext : ExtEnv) (st : ServerState) (baseClientId : String)
    (tabId : JsValue) : Except String (JsValue × ServerState) :=
  match ext.closeTargetResult with
  | .error e => .error e
  | .ok result =>
    .ok (result, { st with tabsOf := (fun cid =>
        if cid = baseClientId then
          (st.tabsOf cid).filter (fun t => !jsEq (.jstr t.tabId) tabId)
        else st.tabsOf cid) })


/-- Modelled from the spec: executing an evaluation dispatches one JSON-RPC
`evaluate` call on the target connection via the RPC dispatcher, under the
evaluation's own timeout (`executeEvaluation`, whose source is not among the
files here). -/
def executeEvaluationEffect (evaluation : JsValue) : Effect :=
  .rpcDispatch "evaluate" (jsProp evaluation "id") (jsProp evaluation "timeout")

/-- Translation of `APIServer.openTab(payload)`. -/
def apiOpenTab (ext : ExtEnv) (st : ServerState) (payload : JsValue) :
    Except String JsValue × ServerState × List Effect :=
  let clientId := jsProp payload "clientId"
  let url := (getField payload "url").getD (.jstr "about:blank")
  let background := (getField payload "background").getD (.jbool false)
  if !truthy clientId then (.error "Client ID is required", st, [])
  else
    match clientId with
    | .jstr cid =>
      let baseClientId := firstColonPart cid
      match serverOpenTab ext st baseClientId url background with
      | .error e => (.error e, st, [.openTabCall baseClientId url background])
      | .ok (result, st') =>
        (.ok (.jobj [("clientId", .jstr baseClientId),
                     ("tabId", .jstr result.tabId),
                     ("compositeClientId", .jstr result.compositeClientId),
                     ("url", jsOr result.url url),
                     ("status", .jstr "opened")]),
         st', [.openTabCall baseClientId url background])
    | _ => (.error "clientId.split is not a function", st, [])

/-- Translation of `APIServer.closeTab(payload)`. -/
def apiCloseTab (ext : ExtEnv) (st : ServerState) (payload : JsValue) :
    Except String JsValue × ServerState × List Effect :=
  let clientId := jsProp payload "clientId"
  let tabId := jsProp payload "tabId"
  if !truthy clientId then (.error "Client ID is required", st, [])
  else if !truthy tabId then (.error "Tab ID is required", st, [])
  else
    match clientId with
    | .jstr cid =>
      let baseClientId := firstColonPart cid
      match serverCloseTab ext st baseClientId tabId with
      | .error e => (.error e, st, [.closeTabCall baseClientId tabId])
      | .ok (result, st') =>
        (.ok (.jobj [("clientId", .jstr baseClientId),
                     ("tabId", tabId),
                     ("status", .jstr "closed"),
                     ("success", .jbool (!jsEq (jsProp result "success") (.jbool false)))]),
         st', [.closeTabCall baseClientId tabId])
    | _ => (.error "clientId.split is not a function", st, [])

/-- Loop body of the `runAll` branch of `APIServer.triggerEvaluation`: each
evaluation's status is set to pending and the evaluation executed; a failure
is caught and recorded as a failed entry without aborting the batch. -/
def runAllLoop (ext : ExtEnv) (clientId : String) :
    List JsValue → List JsValue × List Effect
  | [] => ([], [])
  | evaluation :: rest =>
    let entry :=
      match ext.execOutcome evaluation with
      | .ok _ =>
        JsValue.jobj [("id", jsProp evaluation "id"), ("status", .jstr "completed")]
      | .error msg =>
        JsValue.jobj [("id", jsProp evaluation "id"), ("status", .jstr "failed"),
                      ("error", .jstr msg)]
    let (restResults, restEffects) := runAllLoop ext clientId rest
    (entry :: restResults,
     Effect.updateStatus clientId (jsProp evaluation "id") "pending" ::
       executeEvaluationEffect evaluation :: restEffects)

/-- Translation of `APIServer.triggerEvaluation(payload)`. -/
def triggerEvaluation (ext : ExtEnv) (st : ServerState) (payload : JsValue) :
    Except String JsValue × List Effect :=
  let clientId := jsProp payload "clientId"
  let evaluationId := jsProp payload "evaluationId"
  let runAll := truthy (jsProp payload "runAll")
  if !truthy clientId then (.error "Client ID is required", [])
  else
    let clientKey := match clientId with | .jstr s => some s | _ => none
    match clientKey.bind st.connectedClients with
    | none =>
      (.error ("Client '" ++ jsTemplate clientId ++ "' is not connected or not ready"), [])
    | some conn =>
      if !conn.ready then
        (.error ("Client '" ++ jsTemplate clientId ++ "' is not connected or not ready"), [])
      else
        let key := clientKey.getD ""
        if runAll then
          let (results, effects) := runAllLoop ext key (st.evaluationsOf key)
          (.ok (.jobj [("clientId", clientId), ("type", .jstr "batch"),
                       ("results", .jarr results)]), effects)
        else if !truthy evaluationId then
          (.error "Evaluation ID is required when runAll is false", [])
        else
          match (st.evaluationsOf key).find? (fun e => jsEq (jsProp e "id") evaluationId) with
          | none =>
            (.error ("Evaluation '" ++ jsTemplate evaluationId ++
              "' not found for client '" ++ jsTemplate clientId ++ "'"), [])
          | some evaluation =>
            let effects := [Effect.updateStatus key evaluationId "pending",
                            executeEvaluationEffect evaluation]
            match ext.execOutcome evaluation with
            | .error msg => (.error msg, effects)
            | .ok _ =>
              (.ok (.jobj [("clientId", clientId), ("evaluationId", evaluationId),
                           ("type", .jstr "single"), ("status", .jstr "completed")]),
               effects)

/-- Translation of `APIServer.handleResponsesRequest(requestBody)`: validate `input`,
resolve the model tiers, pick a client, open a fresh tab, wait for the tab's
agent, optionally sleep for the page-load grace period, synthesize and
execute a dynamic evaluation, then extract and format the answer. -/
def handleResponsesRequest (ext : ExtEnv) (st : ServerState) (requestBody : JsValue) :
    Except String JsValue × ServerState × List Effect :=
  if !truthy (jsProp requestBody "input") || !(jsProp requestBody "input").isStr then
    (.error "Missing or invalid \"input\" field. Expected a string.", st, [])
  else
    let nestedModelConfig := processNestedModelConfig st.configDefaults requestBody ext.apiKeyEnv
    let targetUrl := jsOr (jsProp requestBody "url") (.jstr "about:blank")
    let waitTimeout := jsOr (jsProp requestBody "wait_timeout") (.jnum 5000)
    match findClientWithTabs st with
    | .error e => (.error e, st, [])
    | .ok baseClientId =>
      match serverOpenTab ext st baseClientId targetUrl (.jbool false) with
      | .error e => (.error e, st, [.openTabCall baseClientId targetUrl (.jbool false)])
      | .ok (tabResult, st') =>
        match waitForClientConnectionDefault (ext.connAt tabResult.compositeClientId)
            tabResult.compositeClientId with
        | .error e => (.error e, st', [.openTabCall baseClientId targetUrl (.jbool false)])
        | .ok _tabClient =>
          let sleepEffects :=
            if !jsEq targetUrl (.jstr "about:blank") then [Effect.sleep waitTimeout] else []
          let inputStr := match jsProp requestBody "input" with | .jstr s => s | _ => ""
          let evaluation := createDynamicEvaluationNested inputStr nestedModelConfig ext.now ext.rand
          let effects := Effect.openTabCall baseClientId targetUrl (.jbool false) ::
            sleepEffects ++ [executeEvaluationEffect evaluation]
          match ext.execOutcome evaluation with
          | .error e => (.error e, st', effects)
          | .ok result =>
            let responseText := extractResponseText result
            (.ok (formatResponse ext.uuid responseText
                    (some (firstColonPart tabResult.compositeClientId))
                    (some tabResult.tabId)),
             st', effects)

/-- Segment `i` of a pathname split on '/' (JS `pathname.split('/')[i]`),
empty when out of range. -/
def pathSegment (pathname : String) (i : Nat) : String :=
  (splitOnChar '/' pathname).getD i ""

/-- Translation of `APIServer.handleRequest`: route dispatch with the surrounding
try/catch; any failure raised by a handler is turned into a 500 response
with a JSON error body, while bad methods and unknown routes are reported
directly with 405/404.  `parsedBody` is the outcome of `JSON.parse` on the
request body (consulted only by the POST routes). -/
def handleRequest (ext : ExtEnv) (st : ServerState) (method : String)
    (pathname : String) (parsedBody : Except String JsValue) : HttpResponse :=
  if strStartsWith pathname "/clients/" && strEndsWith pathname "/evaluations" then
    match getClientEvaluations st (pathSegment pathname 2) with
    | .ok r => { status := 200, body := r }
    | .error e => sendErrorResponse 500 e
  else if strStartsWith pathname "/clients/" && strEndsWith pathname "/tabs" then
    match getClientTabsById st (pathSegment pathname 2) with
    | .ok r => { status := 200, body := r }
    | .error e => sendErrorResponse 500 e
  else if pathname = "/status" then { status := 200, body := getStatus st }
  else if pathname = "/clients" then { status := 200, body := getClients st }
  else if pathname = "/evaluate" then
    if method ≠ "POST" then sendErrorResponse 405 "Method not allowed"
    else
      match parsedBody with
      | .error e => sendErrorResponse 500 e
      | .ok body =>
        match (triggerEvaluation ext st body).1 with
        | .ok r => { status := 200, body := r }
        | .error e => sendErrorResponse 500 e
  else if pathname = "/tabs/open" then
    if method ≠ "POST" then sendErrorResponse 405 "Method not allowed"
    else
      match parsedBody with
      | .error e => sendErrorResponse 500 e
      | .ok body =>
        match (apiOpenTab ext st body).1 with
        | .ok r => { status := 200, body := r }
        | .error e => sendErrorResponse 500 e
  else if pathname = "/tabs/close" then
    if method ≠ "POST" then sendErrorResponse 405 "Method not allowed"
    else
      match parsedBody with
      | .error e => sendErrorResponse 500 e
      | .ok body =>
        match (apiCloseTab ext st body).1 with
        | .ok r => { status := 200, body := r }
        | .error e => sendErrorResponse 500 e
  else if pathname = "/v1/responses" then
    if method ≠ "POST" then sendErrorResponse 405 "Method not allowed"
    else
      match parsedBody with
      | .error e => sendErrorResponse 500 e
      | .ok body =>
        match (handleResponsesRequest ext st body).1 with
        | .ok r => { status := 200, body := r }
        | .error e => sendErrorResponse 500 e
  else sendErrorResponse 404 "Not found"

/-- Event at the RPC dispatcher's pending map: a JSON-RPC response arriving
for a correlation id, or that id's timeout timer firing. -/
inductive RpcEvent where
  | response (id : String)
  | timeout (id : String)
deriving DecidableEq

/-- A resolution of a pending RPC request: the continuation was either
resolved with a result or rejected with a timeout error. -/
inductive RpcResolution where
  | resolved (id : String)
  | rejected (id : String)
deriving DecidableEq

/-- Modelled from the spec: the pending-request map of the RPC dispatcher
(`rpc-client.js`, whose source is not among the files here).
`pending id = true` when a `PendingRPCRequest` with that correlation id is in
the map. -/
structure RpcState where
  pending : String → Bool

/-- Modelled from the spec: on a matching response the pending entry is
resolved and removed; on timer fire it is rejected and removed; both paths
are guarded by the entry still being present in the map, so a response
arriving the same tick as the timeout cannot double-resolve. -/
def rpcStep (s : RpcState) : RpcEvent → RpcState × List RpcResolution
  | .response i =>
    if s.pending i then
      ({ pending := fun j => if j = i then false else s.pending j }, [.resolved i])
    else (s, [])
  | .timeout i =>
    if s.pending i then
      ({ pending := fun j => if j = i then false else s.pending j }, [.rejected i])
    else (s, [])

/-- Run of the dispatcher over a sequence of events (events at the same
instant are adjacent in the list, in either order). -/
def rpcRun (s : RpcState) : List RpcEvent → RpcState × List RpcResolution
  | [] => (s, [])
  | e :: rest =>
    let step := rpcStep s e
    let run := rpcRun step.1 rest
    (run.1, step.2 ++ run.2)

/-- Whether a resolution concerns correlation id `i`. -/
def resolutionFor (i : String) : RpcResolution → Bool
  | .resolved j => j == i
  | .rejected j => j == i

/-- Number of resolutions (resolve or reject together) of correlation id `i`. -/
def resolutionCount (i : String) (out : List RpcResolution) : Nat :=
  (out.filter (resolutionFor i)).length

/-- Whether an event targets correlation id `i`. -/
def eventFor (i : String) : RpcEvent → Bool
  | .response j => j == i
  | .timeout j => j == i

/-- The shape probes of claim C3's extraction description, in the claimed
order: `output.response`, `output.text`, `output.answer`, then top-level
`response`, `text`, `answer`. -/
def claimShapeProbes (result : JsValue) : List JsValue :=
  [jsProp (jsProp result "output") "response",
   jsProp (jsProp result "output") "text",
   jsProp (jsProp result "output") "answer",
   jsProp result "response",
   jsProp result "text",
   jsProp result "answer"]

/-- The extraction procedure exactly as claim C3 words it: a plain string is
returned as is; otherwise the ordered shape probes are tried and the first
matching (truthy) one returned; when none match the whole object is
serialized. -/
def claimOrderedExtract (result : JsValue) : JsValue :=
  match result with
  | .jstr s => .jstr s
  | _ =>
    match (claimShapeProbes result).find? truthy with
    | some v => v
    | none => .jstr (stringify result)

/-- Decimal digit characters of a natural number (`Nat.toDigits 10`), the
payload of `Nat.repr`. -/
def natDigits (n : Nat) : List Char := Nat.toDigits 10 n

/-- A minimal concrete server state used by closed witness statements. -/
def sampleState : ServerState :=
  { clients := [{ id := "c1", name := "Client One", description := "d" }],
    tabsOf := fun _ => [],
    connectedClients := fun _ => none,
    configDefaults := .jnull,
    evaluationsOf := fun _ => [],
    serverStatus := .jnull }

/-- A minimal concrete environment used by closed witness statements. -/
def sampleExt : ExtEnv :=
  { createTargetResult := .ok "T1",
    closeTargetResult := .ok (.jobj []),
    connAt := fun _ _ => some { ready := true, remoteAddress := none },
    execOutcome := fun _ => .ok (.jstr "35"),
    apiKeyEnv := some "sk-test",
    uuid := "u-u-i-d",
    now := 1700000000000,
    rand := "abc1234" }

/-! Theorems.  Helper lemmas come first, then one theorem per claim (with a
witness where the statement carries hypotheses). -/

theorem jsProp_of_not_truthy {v : JsValue} (h : truthy v = false) (key : String) :
    jsProp v key = .jnull := by
  cases v with
  | jnull => rfl
  | jbool b => rfl
  | jnum n => rfl
  | jstr s => rfl
  | jarr elems => simp [truthy] at h
  | jobj fields => simp [truthy] at h

theorem jsOr_jnull (b : JsValue) : jsOr .jnull b = b := rfl

theorem waitLoop_ok (connAt : Nat → Option Connection) (cid : String) (maxWaitMs : Nat) :
    ∀ fuel k c, waitLoop connAt cid maxWaitMs fuel k = .ok c →
      c.ready = true ∧ ∃ j, k ≤ j ∧ 500 * j < maxWaitMs ∧ connAt (500 * j) = some c := by
  intro fuel
  induction fuel with
  | zero =>
    intro k c h
    exact absurd h (by simp [waitLoop])
  | succ n ih =>
    intro k c h
    rw [waitLoop] at h
    by_cases hlt : 500 * k < maxWaitMs
    · rw [if_pos hlt] at h
      cases hc : connAt (500 * k) with
      | some conn =>
        simp only [hc] at h
        by_cases hr : conn.ready
        · rw [if_pos hr] at h
          cases h
          exact ⟨hr, k, le_refl k, hlt, hc⟩
        · rw [if_neg hr] at h
          obtain ⟨hcr, j, hkj, hjl, hcj⟩ := ih (k + 1) c h
          exact ⟨hcr, j, by omega, hjl, hcj⟩
      | none =>
        simp only [hc] at h
        obtain ⟨hcr, j, hkj, hjl, hcj⟩ := ih (k + 1) c h
        exact ⟨hcr, j, by omega, hjl, hcj⟩
    · rw [if_neg hlt] at h
      exact absurd h (by simp)

theorem waitLoop_timeout (connAt : Nat → Option Connection) (cid : String) (maxWaitMs : Nat) :
    ∀ fuel k,
      (∀ j, k ≤ j → 500 * j < maxWaitMs → ∀ c, connAt (500 * j) = some c → c.ready = false) →
      waitLoop connAt cid maxWaitMs fuel k = .error (connectionTimeoutMessage cid) := by
  intro fuel
  induction fuel with
  | zero => intro k _; rfl
  | succ n ih =>
    intro k hnone
    rw [waitLoop]
    by_cases hlt : 500 * k < maxWaitMs
    · rw [if_pos hlt]
      cases hc : connAt (500 * k) with
      | some conn =>
        have : conn.ready = false := hnone k le_rfl hlt conn hc
        simp only [this, if_false, Bool.false_eq_true]
        exact ih (k + 1) (fun j hj hjl c hcj => hnone j (by omega) hjl c hcj)
      | none =>
        exact ih (k + 1) (fun j hj hjl c hcj => hnone j (by omega) hjl c hcj)
    · rw [if_neg hlt]

theorem waitLoop_first (connAt : Nat → Option Connection) (cid : String) (maxWaitMs : Nat) :
    ∀ fuel k0 k c, k < k0 + fuel → k0 ≤ k → 500 * k < maxWaitMs →
      connAt (500 * k) = some c → c.ready = true →
      (∀ j, k0 ≤ j → j < k → ∀ c', connAt (500 * j) = some c' → c'.ready = false) →
      waitLoop connAt cid maxWaitMs fuel k0 = .ok c := by
  intro fuel
  induction fuel with
  | zero =>
    intro k0 k c hfuel hk0k _ _ _ _
    omega
  | succ n ih =>
    intro k0 k c hfuel hk0k hlt hc hr hbefore
    by_cases heq : k0 = k
    · subst heq
      rw [waitLoop, if_pos hlt]
      simp only [hc, hr, if_true]
    · have hk0lt : k0 < k := by omega
      rw [waitLoop, if_pos (by omega)]
      cases hc0 : connAt (500 * k0) with
      | some conn =>
        have : conn.ready = false := hbefore k0 le_rfl hk0lt conn hc0
        simp only [this, if_false, Bool.false_eq_true]
        exact ih (k0 + 1) k c (by omega) (by omega) hlt hc hr
          (fun j hj hjk c' hcj => hbefore j (by omega) hjk c' hcj)
      | none =>
        exact ih (k0 + 1) k c (by omega) (by omega) hlt hc hr
          (fun j hj hjk c' hcj => hbefore j (by omega) hjk c' hcj)

/-- C1: for every composite client id and every `maxWaitMs`, the tab-ready
wait polls the live-connection map at a fixed 500 ms interval (poll `j` at
elapsed time `500 * j`): any returned connection is ready and was found at
some poll within `maxWaitMs`; it returns the connection of the first poll
that sees a ready entry; when no poll within `maxWaitMs` sees a ready entry
it fails with the error naming the composite id rather than hanging or
returning a non-ready connection; and the call without `maxWaitMs` uses the
default of 10000 ms. -/
theorem waitForClientConnection_spec (connAt : Nat → Option Connection)
    (compositeClientId : String) (maxWaitMs : Nat) :
    (∀ c, waitForClientConnection connAt compositeClientId maxWaitMs = .ok c →
        c.ready = true ∧ ∃ j, 500 * j < maxWaitMs ∧ connAt (500 * j) = some c) ∧
    ((∀ j, 500 * j < maxWaitMs → ∀ c, connAt (500 * j) = some c → c.ready = false) →
        waitForClientConnection connAt compositeClientId maxWaitMs
          = .error (connectionTimeoutMessage compositeClientId)) ∧
    (∀ k c, 500 * k < maxWaitMs → connAt (500 * k) = some c → c.ready = true →
        (∀ j, j < k → ∀ c', connAt (500 * j) = some c' → c'.ready = false) →
        waitForClientConnection connAt compositeClientId maxWaitMs = .ok c) ∧
    waitForClientConnectionDefault connAt compositeClientId
      = waitForClientConnection connAt compositeClientId 10000 := by
  refine ⟨?_, ?_, ?_, rfl⟩
  · intro c h
    obtain ⟨hr, j, _, hjl, hcj⟩ :=
      waitLoop_ok connAt compositeClientId maxWaitMs (maxWaitMs / 500 + 1) 0 c h
    exact ⟨hr, j, hjl, hcj⟩
  · intro h
    exact waitLoop_timeout connAt compositeClientId maxWaitMs (maxWaitMs / 500 + 1) 0
      (fun j _ hjl c hcj => h j hjl c hcj)
  · intro k c hlt hc hr hbefore
    exact waitLoop_first connAt compositeClientId maxWaitMs (maxWaitMs / 500 + 1) 0 k c
      (by omega) (Nat.zero_le k) hlt hc hr
      (fun j _ hjk c' hcj => hbefore j hjk c' hcj)

/-- Witness for C1 at a concrete map that is ready from the first poll. -/
theorem waitForClientConnection_spec_witness :
    waitForClientConnection (fun _ => some { ready := true, remoteAddress := none })
        "c1:T1" 10000
      = .ok { ready := true, remoteAddress := none } :=
  (waitForClientConnection_spec (fun _ => some { ready := true, remoteAddress := none })
      "c1:T1" 10000).2.2.1 0 { ready := true, remoteAddress := none }
    (by omega) rfl rfl (fun j hj c' hcj => absurd hj (Nat.not_lt_zero j))

/-- C4: for every request body, each of the three model tiers resolves
independently with the precedence request-supplied value, then loaded config
default, then hard-coded fallback: each tier of the resolved config equals
the request's own tier when that is supplied (truthy) and otherwise the
default tier built by `createDefaultModelConfig`, whose model falls back
from the loaded defaults to the hard-coded names and whose `api_key` comes
from the `OPENAI_API_KEY` environment variable; agreeing on one tier in two
requests forces agreement of that resolved tier regardless of the other
tiers. -/
theorem processNestedModelConfig_tiers (configDefaults requestBody : JsValue)
    (apiKeyEnv : Option String) :
    (jsProp (processNestedModelConfig configDefaults requestBody apiKeyEnv) "main_model"
        = jsOr (jsProp (jsProp requestBody "model") "main_model")
            (createDefaultModelConfig .main
              (jsOr (jsOptChain configDefaults "model") (.jobj [])) apiKeyEnv)) ∧
    (jsProp (processNestedModelConfig configDefaults requestBody apiKeyEnv) "mini_model"
        = jsOr (jsProp (jsProp requestBody "model") "mini_model")
            (createDefaultModelConfig .mini
              (jsOr (jsOptChain configDefaults "model") (.jobj [])) apiKeyEnv)) ∧
    (jsProp (processNestedModelConfig configDefaults requestBody apiKeyEnv) "nano_model"
        = jsOr (jsProp (jsProp requestBody "model") "nano_model")
            (createDefaultModelConfig .nano
              (jsOr (jsOptChain configDefaults "model") (.jobj [])) apiKeyEnv)) ∧
    (∀ tier defaults, jsProp (createDefaultModelConfig tier defaults apiKeyEnv) "api_key"
        = (match apiKeyEnv with | some key => .jstr key | none => .jnull)) ∧
    (∀ defaults, jsProp (createDefaultModelConfig .main defaults apiKeyEnv) "model"
        = jsOr (jsProp defaults "main_model") (.jstr "gpt-4")) ∧
    (∀ defaults, jsProp (createDefaultModelConfig .mini defaults apiKeyEnv) "model"
        = jsOr (jsProp defaults "mini_model") (.jstr "gpt-4-mini")) ∧
    (∀ defaults, jsProp (createDefaultModelConfig .nano defaults apiKeyEnv) "model"
        = jsOr (jsProp defaults "nano_model") (.jstr "gpt-3.5-turbo")) ∧
    (∀ rb₁ rb₂, jsProp (jsProp rb₁ "model") "main_model" = jsProp (jsProp rb₂ "model") "main_model" →
        jsProp (processNestedModelConfig configDefaults rb₁ apiKeyEnv) "main_model"
          = jsProp (processNestedModelConfig configDefaults rb₂ apiKeyEnv) "main_model") ∧
    (∀ rb₁ rb₂, jsProp (jsProp rb₁ "model") "mini_model" = jsProp (jsProp rb₂ "model") "mini_model" →
        jsProp (processNestedModelConfig configDefaults rb₁ apiKeyEnv) "mini_model"
          = jsProp (processNestedModelConfig configDefaults rb₂ apiKeyEnv) "mini_model") ∧
    (∀ rb₁ rb₂, jsProp (jsProp rb₁ "model") "nano_model" = jsProp (jsProp rb₂ "model") "nano_model" →
        jsProp (processNestedModelConfig configDefaults rb₁ apiKeyEnv) "nano_model"
          = jsProp (processNestedModelConfig configDefaults rb₂ apiKeyEnv) "nano_model") := by
  have hmain : ∀ rb, jsProp (processNestedModelConfig configDefaults rb apiKeyEnv) "main_model"
      = jsOr (jsProp (jsProp rb "model") "main_model")
          (createDefaultModelConfig .main
            (jsOr (jsOptChain configDefaults "model") (.jobj [])) apiKeyEnv) := by
    intro rb
    unfold processNestedModelConfig
    by_cases h : truthy (jsProp rb "model")
    · rw [if_pos h]
      simp [jsProp, getField, lookupField]
    · have h' : truthy (jsProp rb "model") = false := by simpa using h
      rw [if_neg h, jsProp_of_not_truthy h', jsOr_jnull]
      simp [jsProp, getField, lookupField]
  have hmini : ∀ rb, jsProp (processNestedModelConfig configDefaults rb apiKeyEnv) "mini_model"
      = jsOr (jsProp (jsProp rb "model") "mini_model")
          (createDefaultModelConfig .mini
            (jsOr (jsOptChain configDefaults "model") (.jobj [])) apiKeyEnv) := by
    intro rb
    unfold processNestedModelConfig
    by_cases h : truthy (jsProp rb "model")
    · rw [if_pos h]
      simp [jsProp, getField, lookupField]
    · have h' : truthy (jsProp rb "model") = false := by simpa using h
      rw [if_neg h, jsProp_of_not_truthy h', jsOr_jnull]
      simp [jsProp, getField, lookupField]
  have hnano : ∀ rb, jsProp (processNestedModelConfig configDefaults rb apiKeyEnv) "nano_model"
      = jsOr (jsProp (jsProp rb "model") "nano_model")
          (createDefaultModelConfig .nano
            (jsOr (jsOptChain configDefaults "model") (.jobj [])) apiKeyEnv) := by
    intro rb
    unfold processNestedModelConfig
    by_cases h : truthy (jsProp rb "model")
    · rw [if_pos h]
      simp [jsProp, getField, lookupField]
    · have h' : truthy (jsProp rb "model") = false := by simpa using h
      rw [if_neg h, jsProp_of_not_truthy h', jsOr_jnull]
      simp [jsProp, getField, lookupField]
  refine ⟨hmain requestBody, hmini requestBody, hnano requestBody, ?_, ?_, ?_, ?_, ?_, ?_, ?_⟩
  · intro tier defaults
    cases tier <;> simp [createDefaultModelConfig, jsProp, getField, lookupField]
  · intro defaults
    simp [createDefaultModelConfig, jsProp, getField, lookupField]
  · intro defaults
    simp [createDefaultModelConfig, jsProp, getField, lookupField]
  · intro defaults
    simp [createDefaultModelConfig, jsProp, getField, lookupField]
  · intro rb₁ rb₂ h
    rw [hmain rb₁, hmain rb₂, h]
  · intro rb₁ rb₂ h
    rw [hmini rb₁, hmini rb₂, h]
  · intro rb₁ rb₂ h
    rw [hnano rb₁, hnano rb₂, h]

/-- Witness for C4 at a concrete request supplying only the mini tier: the
mini tier is taken from the request while the main tier falls back to the
hard-coded default with the environment api key. -/
theorem processNestedModelConfig_tiers_witness :
    jsProp (processNestedModelConfig .jnull
        (.jobj [("model", .jobj [("mini_model", .jstr "custom-mini")])]) (some "sk-key"))
        "mini_model" = .jstr "custom-mini" ∧
    jsProp (processNestedModelConfig .jnull
        (.jobj [("model", .jobj [("mini_model", .jstr "custom-mini")])]) (some "sk-key"))
        "main_model"
      = .jobj [("provider", .jstr "openai"), ("model", .jstr "gpt-4"),
               ("api_key", .jstr "sk-key")] := by
  have h := processNestedModelConfig_tiers .jnull
    (.jobj [("model", .jobj [("mini_model", .jstr "custom-mini")])]) (some "sk-key")
  refine ⟨h.2.1.trans ?_, h.1.trans ?_⟩ <;> rfl

theorem firstClientWithTabs_eq_find (tabsOf : String → List Tab) :
    ∀ l : List PersistentClient,
      firstClientWithTabs tabsOf l = l.find? (fun c => !(tabsOf c.id).isEmpty) := by
  intro l
  induction l with
  | nil => rfl
  | cons c rest ih =>
    rw [firstClientWithTabs, List.find?]
    cases htabs : tabsOf c.id with
    | nil => simp [htabs, ih]
    | cons t ts => simp [htabs]

/-- C5: the client chosen to host a new tab is the first known client whose
tab list is nonempty; when no known client has tabs the first known client
is chosen; with no known clients at all the lookup fails with an error
instead of producing a client id. -/
theorem findClientWithTabs_spec (st : ServerState) :
    (∀ c, (st.clients.find? fun d => !(st.tabsOf d.id).isEmpty) = some c →
        findClientWithTabs st = .ok c.id) ∧
    ((st.clients.find? fun d => !(st.tabsOf d.id).isEmpty) = none →
      ∀ c rest, st.clients = c :: rest → findClientWithTabs st = .ok c.id) ∧
    (st.clients = [] →
      findClientWithTabs st
        = .error "No clients found. Please ensure at least one DevTools client is registered.") := by
  refine ⟨?_, ?_, ?_⟩
  · intro c h
    unfold findClientWithTabs
    rw [firstClientWithTabs_eq_find, h]
  · intro h c rest hcl
    unfold findClientWithTabs
    rw [firstClientWithTabs_eq_find, h, hcl]
  · intro h
    unfold findClientWithTabs
    rw [firstClientWithTabs_eq_find, h]
    simp [List.find?]

/-- Witness for C5: a registry with a tabless first client and a second
client owning one tab selects the second client. -/
theorem findClientWithTabs_spec_witness :
    findClientWithTabs
        { clients := [{ id := "c0", name := "a", description := "" },
                      { id := "c1", name := "b", description := "" }],
          tabsOf := fun cid =>
            if cid = "c1" then
              [{ tabId := "T1", compositeClientId := "c1:T1", url := .jnull,
                 connectedAt := 0, connection := none }]
            else [],
          connectedClients := fun _ => none,
          configDefaults := .jnull,
          evaluationsOf := fun _ => [],
          serverStatus := .jnull }
      = .ok "c1" := by
  exact (findClientWithTabs_spec _).1 { id := "c1", name := "b", description := "" } (by rfl)

theorem resolutionCount_append (i : String) (a b : List RpcResolution) :
    resolutionCount i (a ++ b) = resolutionCount i a + resolutionCount i b := by
  simp [resolutionCount, List.filter_append]

theorem rpcRun_not_pending (i : String) :
    ∀ (events : List RpcEvent) (s : RpcState), s.pending i = false →
      resolutionCount i (rpcRun s events).2 = 0 ∧ (rpcRun s events).1.pending i = false := by
  intro events
  induction events with
  | nil => intro s h; exact ⟨rfl, h⟩
  | cons e rest ih =>
    intro s h
    rw [rpcRun]
    have hstep : resolutionCount i (rpcStep s e).2 = 0 ∧ (rpcStep s e).1.pending i = false := by
      cases e with
      | response j =>
        by_cases hj : s.pending j
        · have hij : ¬(i = j) := by intro hh; rw [hh] at h; rw [h] at hj; cases hj
          have hji : ¬(j = i) := fun hh => hij hh.symm
          simp [rpcStep, hj, resolutionCount, resolutionFor, hij, hji, h]
        · simp [rpcStep, hj, resolutionCount, h]
      | timeout j =>
        by_cases hj : s.pending j
        · have hij : ¬(i = j) := by intro hh; rw [hh] at h; rw [h] at hj; cases hj
          have hji : ¬(j = i) := fun hh => hij hh.symm
          simp [rpcStep, hj, resolutionCount, resolutionFor, hij, hji, h]
        · simp [rpcStep, hj, resolutionCount, h]
    obtain ⟨hc, hp⟩ := hstep
    obtain ⟨hc2, hp2⟩ := ih (rpcStep s e).1 hp
    exact ⟨by rw [resolutionCount_append, hc, hc2], hp2⟩

theorem rpcRun_count (i : String) :
    ∀ (events : List RpcEvent) (s : RpcState), s.pending i = true →
      resolutionCount i (rpcRun s events).2
        = (if events.any (eventFor i) then 1 else 0) := by
  intro events
  induction events with
  | nil => intro s h; rfl
  | cons e rest ih =>
    intro s h
    rw [rpcRun]
    by_cases he : eventFor i e
    · have hcase : e = RpcEvent.response i ∨ e = RpcEvent.timeout i := by
        cases e with
        | response j =>
          left
          simp only [eventFor, beq_iff_eq] at he
          rw [he]
        | timeout j =>
          right
          simp only [eventFor, beq_iff_eq] at he
          rw [he]
      have hany : (e :: rest).any (eventFor i) = true := by simp [he]
      rcases hcase with rfl | rfl
      · rw [resolutionCount_append]
        have hrest := (rpcRun_not_pending i rest
          { pending := fun j => if j = i then false else s.pending j } (by simp)).1
        simp [rpcStep, h, resolutionCount, resolutionFor, hany] at hrest ⊢
        exact hrest
      · rw [resolutionCount_append]
        have hrest := (rpcRun_not_pending i rest
          { pending := fun j => if j = i then false else s.pending j } (by simp)).1
        simp [rpcStep, h, resolutionCount, resolutionFor, hany] at hrest ⊢
        exact hrest
    · have hany : (e :: rest).any (eventFor i) = rest.any (eventFor i) := by
        simp [List.any_cons, he]
      rw [resolutionCount_append, hany]
      have hstep : resolutionCount i (rpcStep s e).2 = 0 ∧ (rpcStep s e).1.pending i = true := by
        cases e with
        | response j =>
          have hji : ¬(j = i) := by
            intro hh
            exact he (by simp [eventFor, hh])
          have hij : ¬(i = j) := fun hh => hji hh.symm
          by_cases hj : s.pending j
          · simp [rpcStep, hj, resolutionCount, resolutionFor, hji, hij, h]
          · simp [rpcStep, hj, resolutionCount, h]
        | timeout j =>
          have hji : ¬(j = i) := by
            intro hh
            exact he (by simp [eventFor, hh])
          have hij : ¬(i = j) := fun hh => hji hh.symm
          by_cases hj : s.pending j
          · simp [rpcStep, hj, resolutionCount, resolutionFor, hji, hij, h]
          · simp [rpcStep, hj, resolutionCount, h]
      rw [hstep.1, ih (rpcStep s e).1 hstep.2]
      omega

theorem one_le_count_of_mem {i : String} {r : RpcResolution} {out : List RpcResolution}
    (hm : r ∈ out) (hf : resolutionFor i r = true) : 1 ≤ resolutionCount i out := by
  have hmem : r ∈ out.filter (resolutionFor i) := List.mem_filter.mpr ⟨hm, hf⟩
  exact List.length_pos.mpr (List.ne_nil_of_mem hmem)

theorem two_le_count_of_both {i : String} {out : List RpcResolution}
    (h1 : RpcResolution.resolved i ∈ out) (h2 : RpcResolution.rejected i ∈ out) :
    2 ≤ resolutionCount i out := by
  induction out with
  | nil => cases h1
  | cons x rest ih =>
    rcases List.mem_cons.mp h1 with hx1 | hr1
    · rcases List.mem_cons.mp h2 with hx2 | hr2
      · rw [← hx1] at hx2
        cases hx2
      · have hrest : 1 ≤ resolutionCount i rest :=
          one_le_count_of_mem hr2 (by simp [resolutionFor])
        rw [← hx1]
        simp only [resolutionCount, List.filter_cons, resolutionFor, beq_self_eq_true,
          if_true, List.length_cons] at hrest ⊢
        omega
    · rcases List.mem_cons.mp h2 with hx2 | hr2
      · have hrest : 1 ≤ resolutionCount i rest :=
          one_le_count_of_mem hr1 (by simp [resolutionFor])
        rw [← hx2]
        simp only [resolutionCount, List.filter_cons, resolutionFor, beq_self_eq_true,
          if_true, List.length_cons] at hrest ⊢
        omega
      · have := ih hr1 hr2
        cases hfx : resolutionFor i x <;>
          simp only [resolutionCount, List.filter_cons, hfx, if_true, if_false,
            List.length_cons, Bool.false_eq_true] at this ⊢ <;> omega

/-- C6: a pending RPC entry is resolved or rejected at most once over any
event sequence; it is resolved or rejected exactly once as soon as a
matching response or its timeout occurs (in particular when both occur at
the same instant, in either order); and the two removal paths are mutually
exclusive, so the same correlation id can never be both resolved and
rejected. -/
theorem pendingRPC_exclusive (s : RpcState) (i : String) (events : List RpcEvent) :
    resolutionCount i (rpcRun s events).2 ≤ 1 ∧
    (s.pending i = true → events.any (eventFor i) = true →
        resolutionCount i (rpcRun s events).2 = 1) ∧
    ¬(RpcResolution.resolved i ∈ (rpcRun s events).2 ∧
      RpcResolution.rejected i ∈ (rpcRun s events).2) := by
  have hle : resolutionCount i (rpcRun s events).2 ≤ 1 := by
    cases hp : s.pending i
    · rw [(rpcRun_not_pending i events s hp).1]
      omega
    · rw [rpcRun_count i events s hp]
      split <;> omega
  refine ⟨hle, ?_, ?_⟩
  · intro hp hany
    rw [rpcRun_count i events s hp, if_pos hany]
  · rintro ⟨h1, h2⟩
    have := two_le_count_of_both h1 h2
    omega

/-- Witness for C6: a response and the timeout of the same correlation id
arriving at the same instant produce exactly one resolution. -/
theorem pendingRPC_exclusive_witness :
    resolutionCount "rpc-1" (rpcRun { pending := fun _ => true }
        [RpcEvent.response "rpc-1", RpcEvent.timeout "rpc-1"]).2 = 1 :=
  (pendingRPC_exclusive { pending := fun _ => true } "rpc-1"
      [RpcEvent.response "rpc-1", RpcEvent.timeout "rpc-1"]).2.1 rfl (by decide)

theorem truthy_and_prop (out : JsValue) (key : String) :
    (truthy out && truthy (jsProp out key)) = truthy (jsProp out key) := by
  cases hout : truthy out
  · rw [jsProp_of_not_truthy hout]
    rfl
  · rfl

/-- Counterexample to C3 as stated: for the evaluation result `5`, none of
the claimed shapes match, so the claim's procedure would serialize the whole
value and yield "5"; the code instead returns a fixed placeholder message,
because it serializes only objects and first short-circuits falsy results. -/
theorem extractResponseText_claim_cex :
    extractResponseText (.jnum 5)
        = .jstr "Unable to extract response text from evaluation result" ∧
    claimOrderedExtract (.jnum 5) = .jstr "5" ∧
    extractResponseText (.jnum 5) ≠ claimOrderedExtract (.jnum 5) := by
  refine ⟨rfl, rfl, ?_⟩
  intro h
  rw [show extractResponseText (.jnum 5)
        = .jstr "Unable to extract response text from evaluation result" from rfl,
      show claimOrderedExtract (.jnum 5) = .jstr "5" from rfl] at h
  exact absurd (JsValue.jstr.inj h) (by decide)

/-- C3 (amended): falsy results give the fixed placeholder 'No response
received from evaluation'; a nonempty plain string is returned as is; any
other truthy non-string result is probed with the fixed ordered shape list
(`output.response`, `output.text`, `output.answer`, then top-level
`response`, `text`, `answer`), returning the first truthy match, serializing
the whole value only when it is an object and otherwise returning the fixed
placeholder 'Unable to extract response text from evaluation result'; and
the extracted text is wrapped in the one-element message envelope carrying
the base client id and tab id as metadata. -/
theorem extractResponseText_amended :
    (∀ result, truthy result = false →
        extractResponseText result = .jstr "No response received from evaluation") ∧
    (∀ s, s ≠ "" → extractResponseText (.jstr s) = .jstr s) ∧
    (∀ result, truthy result = true → result.isStr = false →
        extractResponseText result
          = (match (claimShapeProbes result).find? truthy with
             | some v => v
             | none =>
               if jsTypeofObject result then .jstr (stringify result)
               else .jstr "Unable to extract response text from evaluation result")) ∧
    (∀ uuid text c t, c ≠ "" → t ≠ "" →
        formatResponse uuid text (some c) (some t)
          = .jarr [.jobj [("id", .jstr ("msg_" ++ stripDashes uuid)),
                          ("type", .jstr "message"),
                          ("role", .jstr "assistant"),
                          ("content", .jarr [.jobj [("type", .jstr "output_text"),
                                                    ("text", text),
                                                    ("annotations", .jarr [])]]),
                          ("metadata", .jobj [("clientId", .jstr c),
                                              ("tabId", .jstr t)])]]) := by
  refine ⟨?_, ?_, ?_, ?_⟩
  · intro result h
    unfold extractResponseText
    simp [h]
  · intro s h
    unfold extractResponseText
    simp [truthy, JsValue.isStr, h]
  · intro result htr hstr
    unfold extractResponseText claimShapeProbes
    simp only [htr, hstr, Bool.not_true, Bool.false_eq_true, if_false, truthy_and_prop,
      List.find?]
    split_ifs <;> simp_all
  · intro uuid text c t hc ht
    unfold formatResponse optStrTruthy
    simp [hc, ht]

/-- Witness for C3 (amended) at a concrete nested result and concrete
metadata. -/
theorem extractResponseText_amended_witness :
    extractResponseText (.jobj [("output", .jobj [("response", .jstr "35")])]) = .jstr "35" ∧
    formatResponse "u-1" (.jstr "35") (some "c1") (some "T1")
      = .jarr [.jobj [("id", .jstr "msg_u1"),
                      ("type", .jstr "message"),
                      ("role", .jstr "assistant"),
                      ("content", .jarr [.jobj [("type", .jstr "output_text"),
                                                ("text", .jstr "35"),
                                                ("annotations", .jarr [])]]),
                      ("metadata", .jobj [("clientId", .jstr "c1"),
                                          ("tabId", .jstr "T1")])]] := by
  constructor
  · rw [extractResponseText_amended.2.2.1
      (.jobj [("output", .jobj [("response", .jstr "35")])]) (by rfl) (by rfl)]
    rfl
  · rw [extractResponseText_amended.2.2.2 "u-1" (.jstr "35") "c1" "T1"
      (by decide) (by decide)]
    rfl

theorem digitChar_ne_dash : ∀ n : Nat, Nat.digitChar n ≠ '-'
  | 0 | 1 | 2 | 3 | 4 | 5 | 6 | 7 | 8 | 9 | 10 | 11 | 12 | 13 | 14 | 15 => by decide
  | n + 16 => by
    intro h
    unfold Nat.digitChar at h
    rw [if_neg (by omega : ¬(n + 16 = 0)), if_neg (by omega : ¬(n + 16 = 1)),
      if_neg (by omega : ¬(n + 16 = 2)), if_neg (by omega : ¬(n + 16 = 3)),
      if_neg (by omega : ¬(n + 16 = 4)), if_neg (by omega : ¬(n + 16 = 5)),
      if_neg (by omega : ¬(n + 16 = 6)), if_neg (by omega : ¬(n + 16 = 7)),
      if_neg (by omega : ¬(n + 16 = 8)), if_neg (by omega : ¬(n + 16 = 9)),
      if_neg (by omega : ¬(n + 16 = 10)), if_neg (by omega : ¬(n + 16 = 11)),
      if_neg (by omega : ¬(n + 16 = 12)), if_neg (by omega : ¬(n + 16 = 13)),
      if_neg (by omega : ¬(n + 16 = 14)), if_neg (by omega : ¬(n + 16 = 15))] at h
    exact absurd h (by decide)

theorem toDigitsCore_no_dash :
    ∀ (fuel n : Nat) (ds : List Char), '-' ∉ ds → '-' ∉ Nat.toDigitsCore 10 fuel n ds := by
  intro fuel
  induction fuel with
  | zero => intro n ds h; simpa [Nat.toDigitsCore] using h
  | succ f ih =>
    intro n ds h
    rw [Nat.toDigitsCore]
    split
    · intro hmem
      rcases List.mem_cons.mp hmem with h1 | h2
      · exact digitChar_ne_dash (n % 10) h1.symm
      · exact h h2
    · apply ih
      intro hmem
      rcases List.mem_cons.mp hmem with h1 | h2
      · exact digitChar_ne_dash (n % 10) h1.symm
      · exact h h2

theorem repr_no_dash (n : Nat) : '-' ∉ (Nat.repr n).data := by
  show '-' ∉ Nat.toDigitsCore 10 (n + 1) n []
  exact toDigitsCore_no_dash (n + 1) n [] (by simp)

theorem toDigitsCore_fuel (n : Nat) :
    ∀ f₁ f₂ ds, n < f₁ → n < f₂ →
      Nat.toDigitsCore 10 f₁ n ds = Nat.toDigitsCore 10 f₂ n ds := by
  induction n using Nat.strong_induction_on with
  | _ n ih =>
    intro f₁ f₂ ds h₁ h₂
    match f₁, f₂ with
    | a + 1, b + 1 =>
      rw [Nat.toDigitsCore, Nat.toDigitsCore]
      by_cases hz : n / 10 = 0
      · simp only [hz, if_true]
      · simp only [hz, if_false]
        have hlt : n / 10 < n := Nat.div_lt_self (by omega) (by omega)
        exact ih (n / 10) hlt a b _ (by omega) (by omega)

theorem toDigitsCore_append :
    ∀ (fuel n : Nat) (ds : List Char),
      Nat.toDigitsCore 10 fuel n ds = Nat.toDigitsCore 10 fuel n [] ++ ds := by
  intro fuel
  induction fuel with
  | zero => intro n ds; simp [Nat.toDigitsCore]
  | succ f ih =>
    intro n ds
    rw [Nat.toDigitsCore, Nat.toDigitsCore]
    by_cases hz : n / 10 = 0
    · simp [hz]
    · simp only [hz, if_false]
      rw [ih (n / 10) (Nat.digitChar (n % 10) :: ds), ih (n / 10) [Nat.digitChar (n % 10)]]
      simp

theorem natDigits_lt (n : Nat) (h : n < 10) : natDigits n = [Nat.digitChar n] := by
  unfold natDigits Nat.toDigits
  rw [Nat.toDigitsCore]
  have hz : n / 10 = 0 := Nat.div_eq_of_lt h
  simp [hz, Nat.mod_eq_of_lt h]

theorem natDigits_ge (n : Nat) (h : 10 ≤ n) :
    natDigits n = natDigits (n / 10) ++ [Nat.digitChar (n % 10)] := by
  unfold natDigits Nat.toDigits
  match hn : n, h with
  | m + 1, _ =>
    rw [Nat.toDigitsCore]
    have hz : ¬((m + 1) / 10 = 0) := by
      have : 1 ≤ (m + 1) / 10 := (Nat.one_le_div_iff (by omega)).mpr (by omega)
      omega
    simp only [hz, if_false]
    rw [toDigitsCore_append (m + 1) ((m + 1) / 10) [Nat.digitChar ((m + 1) % 10)]]
    congr 1
    have hlt : (m + 1) / 10 < m + 1 := Nat.div_lt_self (by omega) (by omega)
    exact toDigitsCore_fuel ((m + 1) / 10) (m + 1) ((m + 1) / 10 + 1) [] (by omega) (by omega)

theorem natDigits_ne_nil (n : Nat) : natDigits n ≠ [] := by
  by_cases h : n < 10
  · rw [natDigits_lt n h]
    simp
  · rw [natDigits_ge n (by omega)]
    simp

theorem digitChar_inj {a b : Nat} (ha : a < 10) (hb : b < 10)
    (h : Nat.digitChar a = Nat.digitChar b) : a = b := by
  interval_cases a <;> interval_cases b <;> first | rfl | exact absurd h (by decide)

theorem natDigits_inj : ∀ n m : Nat, natDigits n = natDigits m → n = m := by
  intro n
  induction n using Nat.strong_induction_on with
  | _ n ih =>
    intro m h
    by_cases hn : n < 10 <;> by_cases hm : m < 10
    · rw [natDigits_lt n hn, natDigits_lt m hm] at h
      exact digitChar_inj hn hm (List.cons.inj h).1
    · rw [natDigits_lt n hn, natDigits_ge m (by omega)] at h
      have hlen := congrArg List.length h
      simp only [List.length_append, List.length_cons, List.length_nil] at hlen
      have hpos : 0 < (natDigits (m / 10)).length :=
        List.length_pos.mpr (natDigits_ne_nil (m / 10))
      omega
    · rw [natDigits_ge n (by omega), natDigits_lt m hm] at h
      have hlen := congrArg List.length h
      simp only [List.length_append, List.length_cons, List.length_nil] at hlen
      have hpos : 0 < (natDigits (n / 10)).length :=
        List.length_pos.mpr (natDigits_ne_nil (n / 10))
      omega
    · rw [natDigits_ge n (by omega), natDigits_ge m (by omega)] at h
      have hrev := congrArg List.reverse h
      simp only [List.reverse_append, List.reverse_cons, List.reverse_nil,
        List.nil_append, List.cons_append] at hrev
      obtain ⟨hd, htl⟩ := List.cons.inj hrev
      have htails : natDigits (n / 10) = natDigits (m / 10) := by
        have := congrArg List.reverse htl
        simpa using this
      have hdiv : n / 10 = m / 10 :=
        ih (n / 10) (Nat.div_lt_self (by omega) (by omega)) (m / 10) htails
      have hmod : n % 10 = m % 10 :=
        digitChar_inj (Nat.mod_lt n (by omega)) (Nat.mod_lt m (by omega)) hd
      omega

theorem natRepr_inj {n m : Nat} (h : Nat.repr n = Nat.repr m) : n = m := by
  apply natDigits_inj
  have := congrArg String.data h
  exact this

theorem append_dash_inj :
    ∀ (a c b d : List Char), '-' ∉ a → '-' ∉ c →
      a ++ '-' :: b = c ++ '-' :: d → a = c ∧ b = d := by
  intro a
  induction a with
  | nil =>
    intro c b d ha hc h
    cases c with
    | nil => simpa using h
    | cons x xs =>
      simp only [List.nil_append, List.cons_append] at h
      obtain ⟨h1, h2⟩ := List.cons.inj h
      exact absurd (h1 ▸ List.mem_cons_self x xs) hc
  | cons x xs ih =>
    intro c b d ha hc h
    cases c with
    | nil =>
      simp only [List.cons_append, List.nil_append] at h
      obtain ⟨h1, h2⟩ := List.cons.inj h
      exact absurd (h1 ▸ List.mem_cons_self x xs) ha
    | cons y ys =>
      simp only [List.cons_append] at h
      obtain ⟨h1, h2⟩ := List.cons.inj h
      have ha' : '-' ∉ xs := fun hm => ha (List.mem_cons_of_mem x hm)
      have hc' : '-' ∉ ys := fun hm => hc (List.mem_cons_of_mem y hm)
      obtain ⟨hac, hbd⟩ := ih ys b d ha' hc' h2
      exact ⟨by rw [h1, hac], hbd⟩

theorem evaluationId_inj (t₁ t₂ : Nat) (r₁ r₂ : String)
    (h : "api-eval-" ++ Nat.repr t₁ ++ "-" ++ r₁ = "api-eval-" ++ Nat.repr t₂ ++ "-" ++ r₂) :
    t₁ = t₂ ∧ r₁ = r₂ := by
  have hd := congrArg String.data h
  simp only [String.data_append, List.append_assoc] at hd
  have hd' := (List.append_right_inj ("api-eval-".data)).mp hd
  have hshape : (Nat.repr t₁).data ++ '-' :: r₁.data
      = (Nat.repr t₂).data ++ '-' :: r₂.data := by
    simpa using hd'
  obtain ⟨hrepr, hr⟩ := append_dash_inj _ _ _ _ (repr_no_dash t₁) (repr_no_dash t₂) hshape
  exact ⟨natRepr_inj (String.ext hrepr), String.ext hr⟩

/-- C8: every synthesized evaluation has tool "chat", the caller's input
string as its input message, the 7200000 ms (2 hour) timeout, and an id of
the form api-eval-<timestamp>-<random> (so the "api-eval-" prefix, with
distinct timestamp/random pairs giving distinct ids); and every RPC the
responses handler dispatches is an `evaluate` call for that id under the
7200000 ms timeout. -/
theorem createDynamicEvaluationNested_spec :
    (∀ input cfg now rand,
      jsProp (createDynamicEvaluationNested input cfg now rand) "tool" = .jstr "chat" ∧
      jsProp (createDynamicEvaluationNested input cfg now rand) "timeout" = .jnum 7200000 ∧
      jsProp (createDynamicEvaluationNested input cfg now rand) "input"
        = .jobj [("message", .jstr input)] ∧
      jsProp (createDynamicEvaluationNested input cfg now rand) "id"
        = .jstr ("api-eval-" ++ Nat.repr now ++ "-" ++ rand) ∧
      ∃ rest, ("api-eval-" ++ Nat.repr now ++ "-" ++ rand) = "api-eval-" ++ rest) ∧
    (∀ now₁ now₂ rand₁ rand₂,
      ("api-eval-" ++ Nat.repr now₁ ++ "-" ++ rand₁ : String)
          = "api-eval-" ++ Nat.repr now₂ ++ "-" ++ rand₂ →
      now₁ = now₂ ∧ rand₁ = rand₂) ∧
    (∀ ext st rb m i tmo,
      Effect.rpcDispatch m i tmo ∈ (handleResponsesRequest ext st rb).2.2 →
      m = "evaluate" ∧ tmo = .jnum 7200000 ∧
      i = .jstr ("api-eval-" ++ Nat.repr ext.now ++ "-" ++ ext.rand)) := by
  refine ⟨?_, ?_, ?_⟩
  · intro input cfg now rand
    refine ⟨rfl, rfl, rfl, rfl, Nat.repr now ++ "-" ++ rand, ?_⟩
    simp [String.append_assoc]
  · intro now₁ now₂ rand₁ rand₂ h
    exact evaluationId_inj now₁ now₂ rand₁ rand₂ h
  · intro ext st rb m i tmo hmem
    simp only [handleResponsesRequest] at hmem
    repeat' split at hmem
    all_goals simp only [executeEvaluationEffect] at hmem
    all_goals simp at hmem
    all_goals obtain ⟨hm, hi, ht⟩ := hmem
    all_goals exact ⟨hm, by rw [ht]; rfl, by rw [hi]; rfl⟩

/-- Witness for C8: on a concrete state the responses handler dispatches the
evaluate RPC of the synthesized evaluation under the 7200000 ms timeout. -/
theorem createDynamicEvaluationNested_spec_witness :
    ("evaluate" : String) = "evaluate" ∧
    (JsValue.jnum 7200000) = .jnum 7200000 ∧
    (JsValue.jstr ("api-eval-" ++ Nat.repr 1700000000000 ++ "-" ++ "abc1234"))
      = .jstr ("api-eval-" ++ Nat.repr sampleExt.now ++ "-" ++ sampleExt.rand) :=
  createDynamicEvaluationNested_spec.2.2 sampleExt sampleState
    (.jobj [("input", .jstr "hi")]) "evaluate"
    (.jstr ("api-eval-" ++ Nat.repr 1700000000000 ++ "-" ++ "abc1234"))
    (.jnum 7200000)
    (List.mem_cons_of_mem _ (List.mem_cons_self _ _))

/-- Counterexample to C2 as stated: a POST /v1/responses body with no
`input` field fails, but the validation error reaches the HTTP caller with
status 500 (the facade's catch-all), which is not a 4xx status code. -/
theorem responsesValidation_cex :
    (handleRequest sampleExt sampleState "POST" "/v1/responses"
        (.ok (.jobj []))).status = 500 ∧
    ¬(400 ≤ (handleRequest sampleExt sampleState "POST" "/v1/responses"
        (.ok (.jobj []))).status ∧
      (handleRequest sampleExt sampleState "POST" "/v1/responses"
        (.ok (.jobj []))).status ≤ 499) := by
  have h : (handleRequest sampleExt sampleState "POST" "/v1/responses"
      (.ok (.jobj []))).status = 500 := by decide
  refine ⟨h, ?_⟩
  rw [h]
  omega

/-- C2 (amended): for every POST /v1/responses request whose body lacks
`input` or whose `input` is not a truthy string, the request fails with the
validation error reported to the HTTP caller as a 500 response carrying the
message in a JSON error body, and no side effects are attempted (no tab is
opened and no RPC is dispatched) and the server state is unchanged. -/
theorem responsesValidation_amended (ext : ExtEnv) (st : ServerState)
    (rb : JsValue)
    (h : (!truthy (jsProp rb "input") || !(jsProp rb "input").isStr) = true) :
    handleRequest ext st "POST" "/v1/responses" (.ok rb)
      = sendErrorResponse 500 "Missing or invalid \"input\" field. Expected a string." ∧
    (handleResponsesRequest ext st rb).2.2 = [] ∧
    (handleResponsesRequest ext st rb).2.1 = st := by
  have hr : handleResponsesRequest ext st rb
      = (.error "Missing or invalid \"input\" field. Expected a string.", st, []) := by
    unfold handleResponsesRequest
    rw [if_pos h]
  refine ⟨?_, by rw [hr], by rw [hr]⟩
  unfold handleRequest
  rw [if_neg (by decide), if_neg (by decide), if_neg (by decide), if_neg (by decide),
    if_neg (by decide), if_neg (by decide), if_neg (by decide), if_pos rfl,
    if_neg (by decide)]
  simp only [hr]

/-- Witness for C2 (amended) at the concrete empty request body. -/
theorem responsesValidation_amended_witness :
    handleRequest sampleExt sampleState "POST" "/v1/responses" (.ok (.jobj []))
      = sendErrorResponse 500 "Missing or invalid \"input\" field. Expected a string." ∧
    (handleResponsesRequest sampleExt sampleState (.jobj [])).2.2 = [] ∧
    (handleResponsesRequest sampleExt sampleState (.jobj [])).2.1 = sampleState :=
  responsesValidation_amended sampleExt sampleState (.jobj []) (by decide)

theorem runAllLoop_spec (ext : ExtEnv) (clientId : String) :
    ∀ evaluations : List JsValue,
      (runAllLoop ext clientId evaluations).1
        = evaluations.map (fun evaluation =>
            match ext.execOutcome evaluation with
            | .ok _ => JsValue.jobj [("id", jsProp evaluation "id"),
                ("status", .jstr "completed")]
            | .error msg => JsValue.jobj [("id", jsProp evaluation "id"),
                ("status", .jstr "failed"), ("error", .jstr msg)]) ∧
      (runAllLoop ext clientId evaluations).2
        = evaluations.flatMap (fun evaluation =>
            [Effect.updateStatus clientId (jsProp evaluation "id") "pending",
             executeEvaluationEffect evaluation]) := by
  intro evaluations
  induction evaluations with
  | nil => exact ⟨rfl, rfl⟩
  | cons e rest ih =>
    constructor
    · rw [List.map_cons, ← ih.1, runAllLoop]
    · rw [List.flatMap_cons, ← ih.2, runAllLoop]
      rfl

/-- C10: a POST /evaluate with `runAll` true against a connected and ready
client attempts every configured evaluation of that client in order (a
status update followed by a dispatch per evaluation), catches an individual
failure as a failed entry with its error message without aborting the batch,
and returns exactly one entry (completed or failed) per configured
evaluation, in order. -/
theorem triggerEvaluation_runAll (ext : ExtEnv) (st : ServerState) (payload : JsValue)
    (cid : String)
    (hcid : jsProp payload "clientId" = .jstr cid)
    (hne : cid ≠ "")
    (conn : Connection)
    (hconn : st.connectedClients cid = some conn)
    (hready : conn.ready = true)
    (hrun : truthy (jsProp payload "runAll") = true) :
    (triggerEvaluation ext st payload).1
      = .ok (.jobj [("clientId", .jstr cid), ("type", .jstr "batch"),
          ("results", .jarr ((st.evaluationsOf cid).map (fun evaluation =>
            match ext.execOutcome evaluation with
            | .ok _ => JsValue.jobj [("id", jsProp evaluation "id"),
                ("status", .jstr "completed")]
            | .error msg => JsValue.jobj [("id", jsProp evaluation "id"),
                ("status", .jstr "failed"), ("error", .jstr msg)])))]) ∧
    (triggerEvaluation ext st payload).2
      = (st.evaluationsOf cid).flatMap (fun evaluation =>
          [Effect.updateStatus cid (jsProp evaluation "id") "pending",
           executeEvaluationEffect evaluation]) ∧
    ((st.evaluationsOf cid).map (fun evaluation =>
        match ext.execOutcome evaluation with
        | .ok _ => JsValue.jobj [("id", jsProp evaluation "id"),
            ("status", .jstr "completed")]
        | .error msg => JsValue.jobj [("id", jsProp evaluation "id"),
            ("status", .jstr "failed"), ("error", .jstr msg)])).length
      = (st.evaluationsOf cid).length := by
  have htr : (!truthy (JsValue.jstr cid)) = false := by simp [truthy, hne]
  simp only [triggerEvaluation, hcid, htr, Bool.false_eq_true, if_false, Option.bind,
    hconn, hready, Bool.not_true, hrun, if_true, Option.getD_some]
  rcases hx : runAllLoop ext cid (st.evaluationsOf cid) with ⟨results, effects⟩
  have hrl := runAllLoop_spec ext cid (st.evaluationsOf cid)
  rw [hx] at hrl
  simp only [hx]
  exact ⟨by rw [← hrl.1], by rw [← hrl.2], List.length_map _ _⟩

/-- Witness for C10: a batch over one configured evaluation whose execution
fails yields exactly one failed entry carrying the error message. -/
theorem triggerEvaluation_runAll_witness :
    (triggerEvaluation
        { sampleExt with execOutcome := fun _ => .error "boom" }
        { sampleState with
          connectedClients := fun cid =>
            if cid = "c1" then some { ready := true, remoteAddress := none } else none,
          evaluationsOf := fun cid =>
            if cid = "c1" then [.jobj [("id", .jstr "e1")]] else [] }
        (.jobj [("clientId", .jstr "c1"), ("runAll", .jbool true)])).1
      = .ok (.jobj [("clientId", .jstr "c1"), ("type", .jstr "batch"),
          ("results", .jarr [.jobj [("id", .jstr "e1"), ("status", .jstr "failed"),
            ("error", .jstr "boom")]])]) := by
  have h := (triggerEvaluation_runAll
    { sampleExt with execOutcome := fun _ => .error "boom" }
    { sampleState with
      connectedClients := fun cid =>
        if cid = "c1" then some { ready := true, remoteAddress := none } else none,
      evaluationsOf := fun cid =>
        if cid = "c1" then [.jobj [("id", .jstr "e1")]] else [] }
    (.jobj [("clientId", .jstr "c1"), ("runAll", .jbool true)])
    "c1" rfl (by decide) { ready := true, remoteAddress := none }
    rfl rfl rfl).1
  rw [h]
  rfl

/-- C9: every HTTP request to the facade receives a structured response —
either a 200 success carrying the handler's result or an error status whose
body is the JSON object with the failure message — and an internal failure
raised by the responses handler is recovered at the boundary and reported as
a 500 response carrying exactly that failure's message. -/
theorem handleRequest_total (ext : ExtEnv) (st : ServerState) (method pathname : String)
    (parsedBody : Except String JsValue) :
    ((∃ data, handleRequest ext st method pathname parsedBody
        = { status := 200, body := data }) ∨
     (∃ code msg, handleRequest ext st method pathname parsedBody
        = sendErrorResponse code msg)) ∧
    (∀ rb e, (handleResponsesRequest ext st rb).1 = .error e →
        handleRequest ext st "POST" "/v1/responses" (.ok rb)
          = sendErrorResponse 500 e) := by
  constructor
  · have key : ∀ r : HttpResponse,
        handleRequest ext st method pathname parsedBody = r →
        (∃ data, r = { status := 200, body := data }) ∨
        (∃ code msg, r = sendErrorResponse code msg) := by
      intro r hr
      unfold handleRequest at hr
      repeat' split at hr
      all_goals
        first
        | exact Or.inl ⟨_, hr.symm⟩
        | exact Or.inr ⟨_, _, hr.symm⟩
    exact key _ rfl
  · intro rb e he
    unfold handleRequest
    rw [if_neg (by decide), if_neg (by decide), if_neg (by decide), if_neg (by decide),
      if_neg (by decide), if_neg (by decide), if_neg (by decide), if_pos rfl,
      if_neg (by decide)]
    simp only [he]

/-- Witness for C9: the recovery clause at a concrete failing request. -/
theorem handleRequest_total_witness :
    handleRequest sampleExt sampleState "POST" "/v1/responses"
        (.ok (.jobj [("input", .jnum 3)]))
      = sendErrorResponse 500 "Missing or invalid \"input\" field. Expected a string." :=
  (handleRequest_total sampleExt sampleState "POST" "/v1/responses"
      (.ok (.jobj [("input", .jnum 3)]))).2 (.jobj [("input", .jnum 3)])
    "Missing or invalid \"input\" field. Expected a string." rfl

theorem jsProp_tabEntryJson_tabId (st : ServerState) (tab : Tab) :
    jsProp (tabEntryJson st tab) "tabId" = .jstr tab.tabId := rfl

theorem jsProp_tabEntryJson_composite (st : ServerState) (tab : Tab) :
    jsProp (tabEntryJson st tab) "compositeClientId" = .jstr tab.compositeClientId := rfl

theorem getClientTabsById_lists (st' : ServerState) (base : String)
    (client : PersistentClient) (hbase : base ≠ "")
    (hfind : st'.clients.find? (fun c => c.id == base) = some client)
    (tab : Tab) (hmem : tab ∈ st'.tabsOf base) :
    ∃ entries, getClientTabsById st' base
        = .ok (.jobj [("baseClientId", .jstr base),
                      ("clientName", .jstr client.name),
                      ("tabCount", .jnum ((st'.tabsOf base).length : Int)),
                      ("tabs", .jarr entries)]) ∧
      ∃ entry ∈ entries, jsProp entry "tabId" = .jstr tab.tabId ∧
        jsProp entry "compositeClientId" = .jstr tab.compositeClientId := by
  unfold getClientTabsById
  rw [if_neg hbase, hfind]
  refine ⟨_, rfl, tabEntryJson st' tab, List.mem_map_of_mem _ hmem,
    jsProp_tabEntryJson_tabId st' tab, jsProp_tabEntryJson_composite st' tab⟩

/-- C7: the /tabs/open handler reduces any supplied client id to the part
before its first colon and its response does not depend on the
live-connection map (it returns without waiting for an agent to connect);
the response carries the new tabId and compositeClientId equal to
base + ":" + tabId, and a following GET of that client's tabs lists an entry
with that tabId and composite id. -/
theorem openTab_spec (ext : ExtEnv) (st : ServerState) (payload : JsValue)
    (cid targetId : String)
    (hcid : jsProp payload "clientId" = .jstr cid) (hne : cid ≠ "")
    (hcreate : ext.createTargetResult = .ok targetId) :
    (∀ conns, (apiOpenTab ext { st with connectedClients := conns } payload).1
        = (apiOpenTab ext st payload).1) ∧
    (∃ r st' effs, apiOpenTab ext st payload = (.ok r, st', effs) ∧
      jsProp r "clientId" = .jstr (firstColonPart cid) ∧
      jsProp r "tabId" = .jstr targetId ∧
      jsProp r "compositeClientId" = .jstr (firstColonPart cid ++ ":" ++ targetId) ∧
      jsProp r "status" = .jstr "opened" ∧
      (∀ client, st.clients.find? (fun c => c.id == firstColonPart cid) = some client →
        firstColonPart cid ≠ "" →
        ∃ entries, getClientTabsById st' (firstColonPart cid)
            = .ok (.jobj [("baseClientId", .jstr (firstColonPart cid)),
                          ("clientName", .jstr client.name),
                          ("tabCount", .jnum ((st'.tabsOf (firstColonPart cid)).length : Int)),
                          ("tabs", .jarr entries)]) ∧
          ∃ entry ∈ entries, jsProp entry "tabId" = .jstr targetId ∧
            jsProp entry "compositeClientId"
              = .jstr (firstColonPart cid ++ ":" ++ targetId))) := by
  have htr : (!truthy (JsValue.jstr cid)) = false := by simp [truthy, hne]
  constructor
  · intro conns
    simp only [apiOpenTab, serverOpenTab, hcid, htr, Bool.false_eq_true, if_false, hcreate]
  · have happ : apiOpenTab ext st payload
        = (.ok (.jobj [("clientId", .jstr (firstColonPart cid)),
                       ("tabId", .jstr targetId),
                       ("compositeClientId", .jstr (firstColonPart cid ++ ":" ++ targetId)),
                       ("url", jsOr ((getField payload "url").getD (.jstr "about:blank"))
                                    ((getField payload "url").getD (.jstr "about:blank"))),
                       ("status", .jstr "opened")]),
           { st with tabsOf := (fun c =>
              if c = firstColonPart cid then
                st.tabsOf c ++ [{ tabId := targetId,
                                  compositeClientId := firstColonPart cid ++ ":" ++ targetId,
                                  url := (getField payload "url").getD (.jstr "about:blank"),
                                  connectedAt := (ext.now : Int), connection := none }]
              else st.tabsOf c) },
           [Effect.openTabCall (firstColonPart cid)
              ((getField payload "url").getD (.jstr "about:blank"))
              ((getField payload "background").getD (.jbool false))]) := by
      simp only [apiOpenTab, serverOpenTab, hcid, htr, Bool.false_eq_true, if_false, hcreate]
    refine ⟨_, _, _, happ, rfl, rfl, rfl, rfl, ?_⟩
    intro client hfind hbase
    refine getClientTabsById_lists
      { st with tabsOf := (fun c =>
          if c = firstColonPart cid then
            st.tabsOf c ++ [{ tabId := targetId,
                              compositeClientId := firstColonPart cid ++ ":" ++ targetId,
                              url := (getField payload "url").getD (.jstr "about:blank"),
                              connectedAt := (ext.now : Int), connection := none }]
          else st.tabsOf c) }
      (firstColonPart cid) client hbase hfind
      { tabId := targetId,
        compositeClientId := firstColonPart cid ++ ":" ++ targetId,
        url := (getField payload "url").getD (.jstr "about:blank"),
        connectedAt := (ext.now : Int), connection := none } ?_
    show _ ∈ (if firstColonPart cid = firstColonPart cid then
        st.tabsOf (firstColonPart cid) ++ [_] else st.tabsOf (firstColonPart cid))
    rw [if_pos rfl]
    exact List.mem_append_right _ (List.mem_singleton_self _)

/-- Witness for C7: opening a tab with the composite id "c1:OLD" reduces the
client id to "c1" and responds with tabId "T1" and composite id "c1:T1". -/
theorem openTab_spec_witness :
    ∃ r st' effs,
      apiOpenTab sampleExt sampleState (.jobj [("clientId", .jstr "c1:OLD")])
        = (.ok r, st', effs) ∧
      jsProp r "tabId" = .jstr "T1" ∧
      jsProp r "compositeClientId" = .jstr "c1:T1" := by
  obtain ⟨-, r, st', effs, happ, -, htab, hcomp, -, -⟩ :=
    openTab_spec sampleExt sampleState (.jobj [("clientId", .jstr "c1:OLD")])
      "c1:OLD" "T1" rfl (by decide) rfl
  exact ⟨r, st', effs, happ, htab, hcomp.trans (by rfl)⟩
